import Mathlib

/-!
Verification of `discord/sticker.py` (the `Sticker` entity of this
repository) against its natural-language specification.

The Python class is shallowly embedded: the decoded JSON payload becomes a
structure of `Option`-typed fields, `Sticker.__init__`/`_from_data` becomes a
total function into `Except` (a raised `KeyError`/`ValueError` is an `error`
value), and the accessors become pure Lean functions over the `Sticker`
structure.  Python machine behaviour that the source relies on (`str.split`,
`str.strip`, `int(...)`, the `is` identity test, `>>` on `int`) is embedded by
small explicit helper functions defined below.
-/

/-! ## Python string and integer primitives used by the source -/

/-- Characters stripped by Python `str.strip()` with no argument
(ASCII whitespace as treated by `str.isspace` for the characters that can
appear here). -/
def pyIsSpace (c : Char) : Bool :=
  c == ' ' || c == '\t' || c == '\n' || c == '\r' || c == '\x0b' || c == '\x0c'

/-- Python `str.strip()`: remove leading and trailing whitespace. -/
def pyStrip (s : String) : String :=
  String.mk (((s.data.dropWhile pyIsSpace).reverse.dropWhile pyIsSpace).reverse)

/-- Helper for `pySplitComma`: walks the characters accumulating the current
piece (reversed); every comma ends a piece.  The final accumulator always
yields one last piece, so the result is never empty — as with Python
`str.split(',')`, where the empty string yields one empty piece. -/
def pySplitCommaAux : List Char → List Char → List String
  | [], acc => [String.mk acc.reverse]
  | c :: cs, acc =>
    if c == ',' then String.mk acc.reverse :: pySplitCommaAux cs []
    else pySplitCommaAux cs (c :: acc)

/-- Python `str.split(',')`: split on every comma, keeping empty pieces. -/
def pySplitComma (s : String) : List String :=
  pySplitCommaAux s.data []

/-- Helper for `parseInt`: consume decimal digits, accumulating the value;
any non-digit character makes the whole parse fail. -/
def parseDigitsAux : List Char → Nat → Option Nat
  | [], acc => some acc
  | c :: cs, acc =>
    if c.isDigit then parseDigitsAux cs (acc * 10 + (c.toNat - 48))
    else none

/-- Python `int(str)` on the base-10 strings this module feeds it: surrounding
whitespace is ignored, an optional single sign is allowed, and at least one
digit is required; any other character is a `ValueError` (`none`).
(Underscore digit grouping, accepted by CPython, is not modelled: no claim
depends on it.) -/
def parseInt (s : String) : Option Int :=
  let cs := ((s.data.dropWhile pyIsSpace).reverse.dropWhile pyIsSpace).reverse
  match cs with
  | [] => none
  | '-' :: rest =>
    match rest with
    | [] => none
    | _ => (parseDigitsAux rest 0).map (fun n => -(n : Int))
  | '+' :: rest =>
    match rest with
    | [] => none
    | _ => (parseDigitsAux rest 0).map (fun n => (n : Int))
  | cs => (parseDigitsAux cs 0).map (fun n => (n : Int))

/-- Python `>>` on `int` is an arithmetic shift: floor division by `2 ^ k`
(CPython semantics, also for negative numbers). -/
def pyShiftRight (n : Int) (k : Nat) : Int :=
  Int.fdiv n (2 ^ k)

/-! ## The enumerations (`discord/enums.py` is not part of src) -/

/-- Modelled from the spec: `enums.py` is not under src.  The spec describes
the sticker type as an "enumerated sticker-type value" whose unknown codes map
to a raw-value fallback, and names a "lottie" sticker-type sentinel used by
the URL accessor; the upstream library's `StickerType` enumeration at this
version carries `png`, `apng` and `lottie` members with codes 1, 2, 3. -/
inductive StickerType
  | png
  | apng
  | lottie
  | raw (code : Int)
deriving DecidableEq

/-- Modelled from the spec: `try_enum(StickerType, code)` — "unrecognized
codes produce a raw-value fallback, never a failure". -/
def try_enum_StickerType (code : Int) : StickerType :=
  if code = 1 then .png
  else if code = 2 then .apng
  else if code = 3 then .lottie
  else .raw code

/-- Modelled from the spec: the format-type enumeration, "one of a closed set
of format kinds (e.g. png, apng, lottie, gif); unknown codes map to a
raw-value fallback label" (spec section 3). -/
inductive StickerFormatType
  | png
  | apng
  | lottie
  | gif
  | raw (code : Int)
deriving DecidableEq

/-- Modelled from the spec: `try_enum(StickerFormatType, code)` with the
raw-value fallback for unrecognized codes. -/
def try_enum_StickerFormatType (code : Int) : StickerFormatType :=
  if code = 1 then .png
  else if code = 2 then .apng
  else if code = 3 then .lottie
  else if code = 4 then .gif
  else .raw code

/-- Modelled from the spec: the string rendering applied by
`str(try_enum(StickerFormatType, ...))` — the spec calls the result a "string
label ... one of a closed set of format kinds (e.g. png, apng, lottie, gif)";
an unknown code's raw-value fallback renders as the decimal code. -/
def strOfStickerFormatType : StickerFormatType → String
  | .png => "png"
  | .apng => "apng"
  | .lottie => "lottie"
  | .gif => "gif"
  | .raw code => toString code

/-! ## Payload, errors and the entity -/

/-- The decoded JSON payload consumed by `Sticker._from_data`, with one
`Option` field per key the source reads (`none` = key absent).  Field types
follow the platform's JSON schema: snowflakes arrive as strings and are
integer-parsed, codes and `version` are numbers, `available` is a boolean,
`tags` is one comma-separated string. -/
structure StickerPayload where
  id : Option String
  name : Option String
  description : Option String
  pack_id : Option String
  format_type : Option Int
  type : Option Int
  asset : Option String
  version : Option Int
  available : Option Bool
  tags : Option String
  preview_asset : Option String
deriving DecidableEq

/-- The exceptions `_from_data` can raise: `KeyError` from a required
subscript (`missingField` names the key) and `ValueError` from `int(...)`. -/
inductive ConstructError
  | missingField (key : String)
  | parseError
deriving DecidableEq

/-- The `Sticker` entity's fields, named as the source's `__slots__` (minus
`_state`, which is the back-reference to the state provider, not data).
`format` is a string because `_from_data` stores `str(try_enum(...))`. -/
structure Sticker where
  id : Int
  guild_id : Int
  name : String
  description : String
  pack_id : Int
  format : String
  image : String
  type : StickerType
  version : Int
  available : Bool
  tags : List String
  preview_image : Option String
deriving DecidableEq

/-- `int(sticker.get('pack_id', 0))`: an absent key defaults to `0`; a present
value is integer-parsed, and a non-numeric value is a parse failure. -/
def parsePack : Option String → Option Int
  | none => some 0
  | some s => parseInt s

/-- `sticker['tags'].split(',')` mapped through `.strip()`, with the
`except KeyError` arm giving the empty list. -/
def parseTags : Option String → List String
  | some t => (pySplitComma t).map pyStrip
  | none => []

/-- `Sticker.__init__`/`_from_data`: reads the payload keys in source order.
A required subscript on an absent key raises `KeyError` (`missingField`); a
non-numeric `id`/`pack_id` raises `ValueError` (`parseError`); `asset`,
`tags` and `preview_asset` are optional; `format_type` and `type` go through
the never-failing enum lookup.  `guild_id` is the owning guild's id, set
before the payload is read. -/
def Sticker.from_data (guild_id : Int) (p : StickerPayload) :
    Except ConstructError Sticker :=
  match p.id with
  | none => .error (.missingField "id")
  | some idStr =>
    match parseInt idStr with
    | none => .error .parseError
    | some id =>
      match p.name with
      | none => .error (.missingField "name")
      | some name =>
        match p.description with
        | none => .error (.missingField "description")
        | some description =>
          match parsePack p.pack_id with
          | none => .error .parseError
          | some pack_id =>
            match p.format_type with
            | none => .error (.missingField "format_type")
            | some format_code =>
              match p.type with
              | none => .error (.missingField "type")
              | some type_code =>
                match p.version with
                | none => .error (.missingField "version")
                | some version =>
                  match p.available with
                  | none => .error (.missingField "available")
                  | some available =>
                    .ok {
                      id := id
                      guild_id := guild_id
                      name := name
                      description := description
                      pack_id := pack_id
                      format := strOfStickerFormatType
                        (try_enum_StickerFormatType format_code)
                      image := p.asset.getD ""
                      type := try_enum_StickerType type_code
                      version := version
                      available := available
                      tags := parseTags p.tags
                      preview_image := p.preview_asset }

/-! ## Operations on the entity -/

/-- `Sticker.__str__`: the mention-style token, in the animated form when the
stored format label is `apng`, `lottie` or `gif`. -/
def Sticker.str (s : Sticker) : String :=
  if s.format = "apng" ∨ s.format = "lottie" ∨ s.format = "gif" then
    "<a:" ++ s.name ++ ":" ++ toString s.id ++ ">"
  else
    "<:" ++ s.name ++ ":" ++ toString s.id ++ ">"

/-- The other operand of `Sticker.__eq__`: a sticker or some non-sticker
Python object (the `isinstance` check only distinguishes these cases). -/
inductive PyObj
  | stickerObj (s : Sticker)
  | strObj (v : String)
  | intObj (n : Int)
deriving DecidableEq

/-- `Sticker.__eq__`: `isinstance(other, Sticker) and self.id == other.id`. -/
def Sticker.pyEq (a : Sticker) : PyObj → Bool
  | .stickerObj b => a.id == b.id
  | _ => false

/-- `Sticker.__hash__`: `self.id >> 22`. -/
def Sticker.pyHash (s : Sticker) : Int :=
  pyShiftRight s.id 22

/-- The values a public `Sticker` attribute can hold, for `__iter__`. -/
inductive FieldValue
  | vInt (n : Int)
  | vStr (s : String)
  | vBool (b : Bool)
  | vTags (l : List String)
  | vType (t : StickerType)
deriving DecidableEq

/-- The source's `__slots__` tuple, in declaration order. -/
def Sticker.slots : List String :=
  ["_state", "id", "guild_id", "name", "description", "pack_id", "format",
   "image", "type", "version", "available", "tags", "preview_image"]

/-- `getattr(self, attr, None)` for the attributes `_iterator` can reach
(every public slot; `_state` is filtered out before `getattr` runs, and an
unknown name gives the `None` default).  Only `preview_image` can be `None`
on a constructed entity. -/
def Sticker.getattr (s : Sticker) (attr : String) : Option FieldValue :=
  if attr = "id" then some (.vInt s.id)
  else if attr = "guild_id" then some (.vInt s.guild_id)
  else if attr = "name" then some (.vStr s.name)
  else if attr = "description" then some (.vStr s.description)
  else if attr = "pack_id" then some (.vInt s.pack_id)
  else if attr = "format" then some (.vStr s.format)
  else if attr = "image" then some (.vStr s.image)
  else if attr = "type" then some (.vType s.type)
  else if attr = "version" then some (.vInt s.version)
  else if attr = "available" then some (.vBool s.available)
  else if attr = "tags" then some (.vTags s.tags)
  else if attr = "preview_image" then s.preview_image.map .vStr
  else none

/-- `Sticker._iterator`/`__iter__`: walk `__slots__`, skip names starting
with an underscore, look the attribute up, and yield the `(name, value)`
pairs whose value is not `None`.  The generator is embedded as the finite
list it yields. -/
def Sticker.iterate (s : Sticker) : List (String × FieldValue) :=
  (Sticker.slots.filter (fun attr => attr.data.head? != some '_')).filterMap
    (fun attr => (s.getattr attr).map (fun v => (attr, v)))

/-! ## The CDN URL accessors -/

/-- The two kinds of Python value compared by the `is` test in
`image_url_as`: the entity's `format` attribute (a `str`) and the enum
sentinel `StickerType.lottie`. -/
inductive PyVal
  | pyStr (s : String)
  | pyEnum (t : StickerType)
deriving DecidableEq

/-- Python `is` between the modelled values: enum members are interned
singletons, so identity between two members coincides with member equality,
and a `str` instance is never the identical object to an enum member.
(Identity between two `str` objects is interning-dependent in CPython and is
never exercised by this module; any total choice is sound here and `false`
is used.) -/
def pyIs : PyVal → PyVal → Bool
  | .pyEnum a, .pyEnum b => a == b
  | _, _ => false

/-- The invalid-argument failure raised by the CDN asset resolver. -/
inductive UrlError
  | invalidArgument
deriving DecidableEq

/-- Modelled from the spec: the size validation performed by the State
Provider's CDN resolver — "size must be a power of two in [16, 4096]". -/
def valid_size (size : Int) : Bool :=
  ([16, 32, 64, 128, 256, 512, 1024, 2048, 4096] : List Int).contains size

/-- Modelled from the spec: `Asset._from_sticker_url` (the State Provider
capability `resolveStickerAssetUrl(entity, size)`; `asset.py` is not under
src).  It validates the size, failing with an invalid-argument error
otherwise, and resolves a CDN URL from the sticker's identity, asset hash
and size. -/
def Asset_from_sticker_url (s : Sticker) (size : Int) : Except UrlError String :=
  if valid_size size then
    .ok ("stickers/" ++ toString s.id ++ "/" ++ s.image ++ ".png?size=" ++
      toString size)
  else
    .error .invalidArgument

/-- `Sticker.image_url_as`: `if self.format is StickerType.lottie: return
None` — note that `self.format` is a `str` — then delegation to the CDN
resolver.  `ok none` is the Python `None` return; `error` is the propagated
invalid-argument failure. -/
def Sticker.image_url_as (s : Sticker) (size : Int) :
    Except UrlError (Option String) :=
  if pyIs (.pyStr s.format) (.pyEnum .lottie) then .ok none
  else (Asset_from_sticker_url s size).map some

/-- `Sticker.image_url`: `return self.image_url_as()`, whose keyword `size`
defaults to 1024. -/
def Sticker.image_url (s : Sticker) : Except UrlError (Option String) :=
  s.image_url_as 1024

/-! ## Statement-level predicates for the failure claim -/

/-- One of the payload keys the source subscripts unconditionally is absent. -/
abbrev requiredFieldAbsent (p : StickerPayload) : Prop :=
  p.id = none ∨ p.name = none ∨ p.description = none ∨ p.format_type = none ∨
  p.type = none ∨ p.version = none ∨ p.available = none

/-- A key the source feeds to `int(...)` is present but non-numeric. -/
abbrev numericFieldMalformed (p : StickerPayload) : Prop :=
  (∃ t, p.id = some t ∧ parseInt t = none) ∨
  (∃ t, p.pack_id = some t ∧ parseInt t = none)

/-! ## Concrete fixtures used by the witnesses -/

/-- A payload whose `format_type` code 3 is the lottie format. -/
def lottiePayload : StickerPayload :=
  { id := some "881", name := some "dancing", description := some "a sticker",
    pack_id := none, format_type := some 3, type := some 1,
    asset := some "abc123", version := some 2, available := some true,
    tags := none, preview_asset := none }

/-- The entity `_from_data` builds from `lottiePayload` in guild 42. -/
def lottieSticker : Sticker :=
  { id := 881, guild_id := 42, name := "dancing", description := "a sticker",
    pack_id := 0, format := "lottie", image := "abc123", type := .png,
    version := 2, available := true, tags := [], preview_image := none }

/-- A payload with a `tags` string and without `pack_id`, `asset` or
`preview_asset`. -/
def tagsPayload : StickerPayload :=
  { id := some "7", name := some "n", description := some "d",
    pack_id := none, format_type := some 1, type := some 1, asset := none,
    version := some 1, available := some true, tags := some "a, b ,c",
    preview_asset := none }

/-- The entity `_from_data` builds from `tagsPayload` in guild 1. -/
def tagsSticker : Sticker :=
  { id := 7, guild_id := 1, name := "n", description := "d", pack_id := 0,
    format := "png", image := "", type := .png, version := 1,
    available := true, tags := ["a", "b", "c"], preview_image := none }

/-- `tagsSticker` with a preview asset hash set. -/
def previewSticker : Sticker :=
  { tagsSticker with preview_image := some "ph" }

/-- `tagsPayload` with the `tags` key present but mapping to `""`. -/
def emptyTagsPayload : StickerPayload :=
  { tagsPayload with tags := some "" }

/-- The entity built from `emptyTagsPayload`: one empty tag. -/
def emptyTagsSticker : Sticker :=
  { tagsSticker with tags := [""] }

/-- `tagsPayload` with the required `name` key removed. -/
def badPayload : StickerPayload :=
  { tagsPayload with name := none }

/-- A payload whose `format_type` and `type` codes are both unrecognized. -/
def rawPayload : StickerPayload :=
  { id := some "9", name := some "r", description := some "rd",
    pack_id := some "5", format_type := some 99, type := some 77,
    asset := none, version := some 3, available := some false, tags := none,
    preview_asset := none }

/-- `rawPayload` with a recognized `format_type` code but still an
unrecognized `type` code. -/
def mixedPayload : StickerPayload :=
  { rawPayload with format_type := some 1 }

/-- Two stickers sharing an id but differing in every other payload field. -/
def stickerA : Sticker :=
  { id := 4194305, guild_id := 1, name := "a", description := "d",
    pack_id := 0, format := "png", image := "", type := .png, version := 1,
    available := true, tags := [], preview_image := none }

/-- See `stickerA`: same id, different remaining fields. -/
def stickerB : Sticker :=
  { stickerA with
    name := "b", description := "q", format := "gif",
    pack_id := 9, version := 2, available := false, tags := ["x"],
    preview_image := some "p" }

/-- `stickerA` with the animated `apng` format label. -/
def stickerApng : Sticker :=
  { stickerA with format := "apng" }

/-! ## Helper lemmas -/

/-- Python comma-splitting never yields an empty list of pieces. -/
theorem pySplitCommaAux_ne_nil (l : List Char) (acc : List Char) :
    pySplitCommaAux l acc ≠ [] := by
  induction l generalizing acc with
  | nil => simp [pySplitCommaAux]
  | cons c cs ih =>
    simp only [pySplitCommaAux]
    split
    · simp
    · exact ih _

/-- See `pySplitCommaAux_ne_nil`. -/
theorem pySplitComma_ne_nil (s : String) : pySplitComma s ≠ [] :=
  pySplitCommaAux_ne_nil _ _

/-- Inversion and introduction for `_from_data`: construction succeeds with
entity `s` exactly when every required key is present, the numeric fields
parse, and `s` is the record the source assembles. -/
theorem Sticker.from_data_ok_iff (g : Int) (p : StickerPayload) (s : Sticker) :
    Sticker.from_data g p = .ok s ↔
      ∃ idStr id name description pack_id format_code type_code version
          available,
        p.id = some idStr ∧ parseInt idStr = some id ∧
        p.name = some name ∧ p.description = some description ∧
        parsePack p.pack_id = some pack_id ∧
        p.format_type = some format_code ∧ p.type = some type_code ∧
        p.version = some version ∧ p.available = some available ∧
        s = { id := id, guild_id := g, name := name,
              description := description, pack_id := pack_id,
              format := strOfStickerFormatType
                (try_enum_StickerFormatType format_code),
              image := p.asset.getD "",
              type := try_enum_StickerType type_code,
              version := version, available := available,
              tags := parseTags p.tags,
              preview_image := p.preview_asset } := by
  constructor
  · intro h
    unfold Sticker.from_data at h
    repeat' split at h
    all_goals try exact Except.noConfusion h
    injection h with h2
    subst h2
    exact ⟨_, _, _, _, _, _, _, _, _, by assumption, by assumption,
      by assumption, by assumption, by assumption, by assumption,
      by assumption, by assumption, by assumption, rfl⟩
  · rintro ⟨idStr, id, name, description, pack_id, format_code, type_code,
      version, available, hid, hpi, hname, hdesc, hpk, hfc, htc, hver, hav,
      hs⟩
    subst hs
    simp only [Sticker.from_data, hid, hpi, hname, hdesc, hpk, hfc, htc,
      hver, hav]

/-! ## The claims -/

/-- Claim C9: for every constructed sticker entity, `image_url` (no size
argument) produces the same result as `image_url_as` with size 1024, the
keyword default. -/
theorem Sticker.image_url_eq_image_url_as_default (s : Sticker) :
    s.image_url = s.image_url_as 1024 :=
  rfl

/-- Claim C2: `__str__` is a pure function of `format`, `name` and `id`; it
yields the animated token form exactly when the format label is `apng`,
`lottie` or `gif`, and the plain form for every other format value. -/
theorem Sticker.str_animated_iff (s : Sticker) :
    (s.str = "<a:" ++ s.name ++ ":" ++ toString s.id ++ ">" ↔
      (s.format = "apng" ∨ s.format = "lottie" ∨ s.format = "gif")) ∧
    (¬(s.format = "apng" ∨ s.format = "lottie" ∨ s.format = "gif") →
      s.str = "<:" ++ s.name ++ ":" ++ toString s.id ++ ">") := by
  have hne : ("<a:" ++ s.name ++ ":" ++ toString s.id ++ ">") ≠
      ("<:" ++ s.name ++ ":" ++ toString s.id ++ ">") := by
    intro h
    have hl := congrArg String.length h
    have e1 : "<a:".length = 3 := by decide
    have e2 : "<:".length = 2 := by decide
    have e3 : ":".length = 1 := by decide
    have e4 : ">".length = 1 := by decide
    simp only [String.length_append, e1, e2, e3, e4] at hl
    omega
  by_cases hd : s.format = "apng" ∨ s.format = "lottie" ∨ s.format = "gif"
  · unfold Sticker.str
    rw [if_pos hd]
    exact ⟨⟨fun _ => hd, fun _ => rfl⟩, fun hc => absurd hd hc⟩
  · unfold Sticker.str
    rw [if_neg hd]
    exact ⟨⟨fun h => absurd h.symm hne, fun h => absurd h hd⟩, fun _ => rfl⟩

/-- Witness for claim C2 at a sticker with an animated format and one with
the plain `png` format. -/
theorem Sticker.str_animated_iff_witness :
    stickerApng.str =
      "<a:" ++ stickerApng.name ++ ":" ++ toString stickerApng.id ++ ">" ∧
    stickerA.str =
      "<:" ++ stickerA.name ++ ":" ++ toString stickerA.id ++ ">" :=
  ⟨(Sticker.str_animated_iff stickerApng).1.2 (Or.inl rfl),
   (Sticker.str_animated_iff stickerA).2 (by decide)⟩

/-- Claim C3: `__eq__` holds exactly when the other operand is a sticker
with the same `id` (all other fields irrelevant), `__hash__` is the id
arithmetically shifted right by 22 bits, and equal stickers hash equally. -/
theorem Sticker.eq_hash_consistent (a b : Sticker) (o : PyObj)
    (hab : a.pyEq (.stickerObj b) = true) :
    (a.pyEq o = true ↔ ∃ c, o = .stickerObj c ∧ a.id = c.id) ∧
    a.pyHash = Int.fdiv a.id (2 ^ 22) ∧
    a.pyHash = b.pyHash := by
  have hid : a.id = b.id := by simpa [Sticker.pyEq] using hab
  refine ⟨?_, rfl, by simp [Sticker.pyHash, pyShiftRight, hid]⟩
  cases o with
  | stickerObj c => simp [Sticker.pyEq]
  | strObj v => simp [Sticker.pyEq]
  | intObj n => simp [Sticker.pyEq]

/-- Witness for claim C3: two stickers sharing id 4194305 but differing in
name, description, format, pack, version, availability, tags and preview. -/
theorem Sticker.eq_hash_consistent_witness :
    (stickerA.pyEq (.intObj 3) = true ↔
      ∃ c, PyObj.intObj 3 = .stickerObj c ∧ stickerA.id = c.id) ∧
    stickerA.pyHash = Int.fdiv stickerA.id (2 ^ 22) ∧
    stickerA.pyHash = stickerB.pyHash :=
  Sticker.eq_hash_consistent stickerA stickerB (.intObj 3) (by decide)

/-- Claim C8: `__iter__` yields exactly the (fieldName, value) pairs of the
publicly-named slots (the underscore-prefixed state reference is excluded)
whose value is not absent, in declaration order; as a pure function of the
entity it is finite and the same fresh sequence on every call. -/
theorem Sticker.iterate_public_nonabsent (s : Sticker) :
    (s.preview_image = none →
      s.iterate =
        [("id", .vInt s.id), ("guild_id", .vInt s.guild_id),
         ("name", .vStr s.name), ("description", .vStr s.description),
         ("pack_id", .vInt s.pack_id), ("format", .vStr s.format),
         ("image", .vStr s.image), ("type", .vType s.type),
         ("version", .vInt s.version), ("available", .vBool s.available),
         ("tags", .vTags s.tags)]) ∧
    (∀ v, s.preview_image = some v →
      s.iterate =
        [("id", .vInt s.id), ("guild_id", .vInt s.guild_id),
         ("name", .vStr s.name), ("description", .vStr s.description),
         ("pack_id", .vInt s.pack_id), ("format", .vStr s.format),
         ("image", .vStr s.image), ("type", .vType s.type),
         ("version", .vInt s.version), ("available", .vBool s.available),
         ("tags", .vTags s.tags), ("preview_image", .vStr v)]) := by
  constructor
  · intro h
    unfold Sticker.iterate Sticker.slots Sticker.getattr
    rw [h]
    rfl
  · intro v h
    unfold Sticker.iterate Sticker.slots Sticker.getattr
    rw [h]
    rfl

/-- Witness for claim C8 at a concrete entity without and with a preview
asset hash. -/
theorem Sticker.iterate_public_nonabsent_witness :
    tagsSticker.iterate =
      [("id", .vInt tagsSticker.id), ("guild_id", .vInt tagsSticker.guild_id),
       ("name", .vStr tagsSticker.name),
       ("description", .vStr tagsSticker.description),
       ("pack_id", .vInt tagsSticker.pack_id),
       ("format", .vStr tagsSticker.format),
       ("image", .vStr tagsSticker.image), ("type", .vType tagsSticker.type),
       ("version", .vInt tagsSticker.version),
       ("available", .vBool tagsSticker.available),
       ("tags", .vTags tagsSticker.tags)] ∧
    previewSticker.iterate =
      [("id", .vInt previewSticker.id),
       ("guild_id", .vInt previewSticker.guild_id),
       ("name", .vStr previewSticker.name),
       ("description", .vStr previewSticker.description),
       ("pack_id", .vInt previewSticker.pack_id),
       ("format", .vStr previewSticker.format),
       ("image", .vStr previewSticker.image),
       ("type", .vType previewSticker.type),
       ("version", .vInt previewSticker.version),
       ("available", .vBool previewSticker.available),
       ("tags", .vTags previewSticker.tags),
       ("preview_image", .vStr "ph")] :=
  ⟨(Sticker.iterate_public_nonabsent tagsSticker).1 rfl,
   (Sticker.iterate_public_nonabsent previewSticker).2 "ph" rfl⟩

/-- Claim C1 (code bug): the claim and the accessor's own docstring say that
`image_url`/`image_url_as` return absence whenever the entity's format is the
lottie sentinel, but `_from_data` stores `format` as a `str` while
`image_url_as` tests `self.format is StickerType.lottie`, an identity test
between a string and an enum member that is false for every string — so a
constructed lottie-format sticker still gets a CDN asset, and no sticker ever
gets the absent result. -/
theorem Sticker.image_url_as_never_none :
    Sticker.from_data 42 lottiePayload = .ok lottieSticker ∧
    lottieSticker.format = "lottie" ∧
    lottieSticker.image_url_as 1024 =
      .ok (some "stickers/881/abc123.png?size=1024") ∧
    (∀ (s : Sticker) (size : Int), s.image_url_as size ≠ .ok none) := by
  refine ⟨rfl, rfl, rfl, ?_⟩
  intro s size
  unfold Sticker.image_url_as Asset_from_sticker_url
  split
  · next h => exact absurd h (by simp [pyIs])
  · split <;> simp [Except.map]

/-- Claim C4: construction sets `tags` by splitting the payload's `tags`
string on commas and stripping whitespace from each piece, keeping pieces
that are empty after stripping; an absent `tags` key gives the empty
sequence. -/
theorem Sticker.from_data_tags_spec (g : Int) (p : StickerPayload)
    (s : Sticker) (h : Sticker.from_data g p = .ok s) :
    (∀ t, p.tags = some t → s.tags = (pySplitComma t).map pyStrip) ∧
    (p.tags = none → s.tags = []) := by
  obtain ⟨idStr, id, name, description, pack_id, format_code, type_code,
    version, available, hid, hpi, hname, hdesc, hpk, hfc, htc, hver, hav,
    hs⟩ := (Sticker.from_data_ok_iff g p s).1 h
  subst hs
  constructor
  · intro t ht
    simp [parseTags, ht]
  · intro ht
    simp [parseTags, ht]

/-- Witness for claim C4: the payload tags string `"a, b ,c"` yields exactly
`["a", "b", "c"]`, and `"a,,b"` splits into `["a", "", "b"]`. -/
theorem Sticker.from_data_tags_spec_witness :
    tagsSticker.tags = (pySplitComma "a, b ,c").map pyStrip ∧
    (pySplitComma "a, b ,c").map pyStrip = ["a", "b", "c"] ∧
    (pySplitComma "a,,b").map pyStrip = ["a", "", "b"] :=
  ⟨(Sticker.from_data_tags_spec 1 tagsPayload tagsSticker rfl).1
      "a, b ,c" rfl,
   by decide, by decide⟩

/-- Claim C5: the optional payload fields default without failing —
`pack_id` to 0, `image` to the empty string, `preview_image` to absence —
and present keys are used instead. -/
theorem Sticker.from_data_optional_defaults (g : Int) (p : StickerPayload)
    (s : Sticker) (h : Sticker.from_data g p = .ok s) :
    (p.pack_id = none → s.pack_id = 0) ∧
    (p.asset = none → s.image = "") ∧
    (p.preview_asset = none → s.preview_image = none) ∧
    (∀ v n, p.pack_id = some v → parseInt v = some n → s.pack_id = n) ∧
    (∀ v, p.asset = some v → s.image = v) ∧
    (∀ v, p.preview_asset = some v → s.preview_image = some v) := by
  obtain ⟨idStr, id, name, description, pack_id, format_code, type_code,
    version, available, hid, hpi, hname, hdesc, hpk, hfc, htc, hver, hav,
    hs⟩ := (Sticker.from_data_ok_iff g p s).1 h
  subst hs
  refine ⟨?_, ?_, ?_, ?_, ?_, ?_⟩
  · intro hn
    rw [hn] at hpk
    simp only [parsePack] at hpk
    simpa using hpk.symm
  · intro hn
    simp [hn]
  · intro hn
    simp [hn]
  · intro v n hv hn
    rw [hv] at hpk
    simp only [parsePack] at hpk
    rw [hn] at hpk
    simpa using hpk.symm
  · intro v hv
    simp [hv]
  · intro v hv
    simp [hv]

/-- Witness for claim C5 at a payload without `pack_id`, `asset` or
`preview_asset` (and, through `lottiePayload`, with `asset` present). -/
theorem Sticker.from_data_optional_defaults_witness :
    tagsSticker.pack_id = 0 ∧ tagsSticker.image = "" ∧
    tagsSticker.preview_image = none ∧ lottieSticker.image = "abc123" :=
  ⟨(Sticker.from_data_optional_defaults 1 tagsPayload tagsSticker rfl).1 rfl,
   (Sticker.from_data_optional_defaults 1 tagsPayload tagsSticker
      rfl).2.1 rfl,
   (Sticker.from_data_optional_defaults 1 tagsPayload tagsSticker
      rfl).2.2.1 rfl,
   (Sticker.from_data_optional_defaults 42 lottiePayload lottieSticker
      rfl).2.2.2.2.1 "abc123" rfl⟩

/-- Claim C10: a `tags` key that is present but maps to the empty string
yields the one-element sequence containing the empty string, not the empty
sequence; the empty sequence arises exactly when the key is absent. -/
theorem Sticker.from_data_empty_tags_string (g : Int) (p : StickerPayload)
    (s : Sticker) (h : Sticker.from_data g p = .ok s) :
    (p.tags = some "" → s.tags = [""]) ∧
    (s.tags = [] ↔ p.tags = none) := by
  obtain ⟨idStr, id, name, description, pack_id, format_code, type_code,
    version, available, hid, hpi, hname, hdesc, hpk, hfc, htc, hver, hav,
    hs⟩ := (Sticker.from_data_ok_iff g p s).1 h
  subst hs
  constructor
  · intro ht
    simp only [parseTags, ht]
    decide
  · cases ht : p.tags with
    | none => simp [parseTags, ht]
    | some t =>
      simp only [parseTags, ht, List.map_eq_nil_iff]
      simpa using pySplitComma_ne_nil t

/-- Witness for claim C10: the payload whose `tags` value is `""` builds an
entity whose tag list is `[""]`. -/
theorem Sticker.from_data_empty_tags_string_witness :
    emptyTagsSticker.tags = [""] :=
  (Sticker.from_data_empty_tags_string 1 emptyTagsPayload emptyTagsSticker
    rfl).1 rfl

/-- Claim C7: whatever the `format_type` and `type` codes — recognized or
not, in any combination — construction never fails on their account, and
each field independently gets the raw-value fallback when its own code is
unrecognized: `format` the raw code's string rendering, `type` the
raw-value wrapper carrying the code. -/
theorem Sticker.from_data_unknown_enum_fallback (g : Int)
    (p : StickerPayload) (idStr name description : String) (id version : Int)
    (available : Bool) (format_code type_code : Int)
    (hid : p.id = some idStr) (hpi : parseInt idStr = some id)
    (hname : p.name = some name) (hdesc : p.description = some description)
    (hpk : parsePack p.pack_id ≠ none)
    (hfc : p.format_type = some format_code)
    (htc : p.type = some type_code)
    (hver : p.version = some version) (hav : p.available = some available) :
    ∃ s, Sticker.from_data g p = .ok s ∧
      (format_code ≠ 1 → format_code ≠ 2 → format_code ≠ 3 →
        format_code ≠ 4 → s.format = toString format_code) ∧
      (type_code ≠ 1 → type_code ≠ 2 → type_code ≠ 3 →
        s.type = .raw type_code) := by
  obtain ⟨pk, hpk⟩ := Option.ne_none_iff_exists'.1 hpk
  refine ⟨_, (Sticker.from_data_ok_iff g p _).2
    ⟨idStr, id, name, description, pk, format_code, type_code, version,
     available, hid, hpi, hname, hdesc, hpk, hfc, htc, hver, hav, rfl⟩,
    ?_, ?_⟩
  · intro hf1 hf2 hf3 hf4
    have hfe : try_enum_StickerFormatType format_code = .raw format_code := by
      simp [try_enum_StickerFormatType, hf1, hf2, hf3, hf4]
    simp [hfe, strOfStickerFormatType]
  · intro ht1 ht2 ht3
    have hte : try_enum_StickerType type_code = .raw type_code := by
      simp [try_enum_StickerType, ht1, ht2, ht3]
    simp [hte]

/-- Witness for claim C7 at a payload whose codes 99 and 77 are both
unrecognized and at a payload pairing the recognized format code 1 with the
unrecognized type code 77. -/
theorem Sticker.from_data_unknown_enum_fallback_witness :
    (∃ s, Sticker.from_data 2 rawPayload = .ok s ∧
      s.format = toString (99 : Int) ∧ s.type = .raw 77) ∧
    (∃ s, Sticker.from_data 2 mixedPayload = .ok s ∧
      s.type = .raw 77) := by
  constructor
  · obtain ⟨s, hok, hf, ht⟩ := Sticker.from_data_unknown_enum_fallback 2
      rawPayload "9" "r" "rd" 9 3 false 99 77 rfl rfl rfl rfl (by decide)
      rfl rfl rfl rfl
    exact ⟨s, hok, hf (by decide) (by decide) (by decide) (by decide),
      ht (by decide) (by decide) (by decide)⟩
  · obtain ⟨s, hok, hf, ht⟩ := Sticker.from_data_unknown_enum_fallback 2
      mixedPayload "9" "r" "rd" 9 3 false 1 77 rfl rfl rfl rfl (by decide)
      rfl rfl rfl rfl
    exact ⟨s, hok, ht (by decide) (by decide) (by decide)⟩

/-- Claim C6: construction fails exactly when a required payload key (`id`,
`name`, `description`, `format_type`, `type`, `version`, `available`) is
absent or when `id` or `pack_id` is present but non-numeric; an absent
required key surfaces as a missing-field error, a non-numeric field as a
parse error, and a failing construction produces an error value and never a
(partially built) entity. -/
theorem Sticker.from_data_failure_iff (g : Int) (p : StickerPayload) :
    ((∃ e, Sticker.from_data g p = .error e) ↔
      (requiredFieldAbsent p ∨ numericFieldMalformed p)) ∧
    (∀ k, Sticker.from_data g p = .error (.missingField k) →
      requiredFieldAbsent p) ∧
    (Sticker.from_data g p = .error .parseError →
      numericFieldMalformed p) := by
  cases hid : p.id with
  | none =>
    refine ⟨?_, ?_, ?_⟩
    · simp [Sticker.from_data, hid, requiredFieldAbsent]
    · intro k _
      simp [requiredFieldAbsent, hid]
    · simp [Sticker.from_data, hid]
  | some idStr =>
    cases hpi : parseInt idStr with
    | none =>
      refine ⟨?_, ?_, ?_⟩
      · simp only [Sticker.from_data, hid, hpi]
        simp [numericFieldMalformed, hid, hpi]
      · intro k hk
        simp [Sticker.from_data, hid, hpi] at hk
      · intro _
        exact Or.inl ⟨idStr, hid, hpi⟩
    | some id =>
      cases hname : p.name with
      | none =>
        refine ⟨?_, ?_, ?_⟩
        · simp [Sticker.from_data, hid, hpi, hname, requiredFieldAbsent]
        · intro k _
          simp [requiredFieldAbsent, hname]
        · simp [Sticker.from_data, hid, hpi, hname]
      | some name =>
        cases hdesc : p.description with
        | none =>
          refine ⟨?_, ?_, ?_⟩
          · simp [Sticker.from_data, hid, hpi, hname, hdesc,
              requiredFieldAbsent]
          · intro k _
            simp [requiredFieldAbsent, hdesc]
          · simp [Sticker.from_data, hid, hpi, hname, hdesc]
        | some description =>
          cases hpk : parsePack p.pack_id with
          | none =>
            obtain ⟨pkStr, hpks⟩ : ∃ t, p.pack_id = some t := by
              cases hp : p.pack_id with
              | none => rw [hp] at hpk; exact absurd hpk (by simp [parsePack])
              | some t => exact ⟨t, rfl⟩
            have hpknum : parseInt pkStr = none := by
              rw [hpks] at hpk
              simpa [parsePack] using hpk
            refine ⟨?_, ?_, ?_⟩
            · simp only [Sticker.from_data, hid, hpi, hname, hdesc, hpk]
              simp [numericFieldMalformed]
              exact Or.inr (Or.inr ⟨pkStr, hpks, hpknum⟩)
            · intro k hk
              simp [Sticker.from_data, hid, hpi, hname, hdesc, hpk] at hk
            · intro _
              exact Or.inr ⟨pkStr, hpks, hpknum⟩
          | some pack_id =>
            cases hfc : p.format_type with
            | none =>
              refine ⟨?_, ?_, ?_⟩
              · simp [Sticker.from_data, hid, hpi, hname, hdesc, hpk, hfc,
                  requiredFieldAbsent]
              · intro k _
                simp [requiredFieldAbsent, hfc]
              · simp [Sticker.from_data, hid, hpi, hname, hdesc, hpk, hfc]
            | some format_code =>
              cases htc : p.type with
              | none =>
                refine ⟨?_, ?_, ?_⟩
                · simp [Sticker.from_data, hid, hpi, hname, hdesc, hpk, hfc,
                    htc, requiredFieldAbsent]
                · intro k _
                  simp [requiredFieldAbsent, htc]
                · simp [Sticker.from_data, hid, hpi, hname, hdesc, hpk, hfc,
                    htc]
              | some type_code =>
                cases hver : p.version with
                | none =>
                  refine ⟨?_, ?_, ?_⟩
                  · simp [Sticker.from_data, hid, hpi, hname, hdesc, hpk,
                      hfc, htc, hver, requiredFieldAbsent]
                  · intro k _
                    simp [requiredFieldAbsent, hver]
                  · simp [Sticker.from_data, hid, hpi, hname, hdesc, hpk,
                      hfc, htc, hver]
                | some version =>
                  cases hav : p.available with
                  | none =>
                    refine ⟨?_, ?_, ?_⟩
                    · simp [Sticker.from_data, hid, hpi, hname, hdesc, hpk,
                        hfc, htc, hver, hav, requiredFieldAbsent]
                    · intro k _
                      simp [requiredFieldAbsent, hav]
                    · simp [Sticker.from_data, hid, hpi, hname, hdesc, hpk,
                        hfc, htc, hver, hav]
                  | some available =>
                    refine ⟨?_, ?_, ?_⟩
                    · simp [Sticker.from_data, hid, hpi, hname, hdesc, hpk,
                        hfc, htc, hver, hav, requiredFieldAbsent,
                        numericFieldMalformed]
                      intro x hx
                      rw [hx] at hpk
                      simp only [parsePack] at hpk
                      simp [hpk]
                    · intro k hk
                      simp [Sticker.from_data, hid, hpi, hname, hdesc, hpk,
                        hfc, htc, hver, hav] at hk
                    · intro hk
                      simp [Sticker.from_data, hid, hpi, hname, hdesc, hpk,
                        hfc, htc, hver, hav] at hk

/-- Witness for claim C6: the payload missing its required `name` key fails
with a missing-field error. -/
theorem Sticker.from_data_failure_iff_witness :
    ∃ e, Sticker.from_data 1 badPayload = .error e :=
  (Sticker.from_data_failure_iff 1 badPayload).1.mpr
    (Or.inl (Or.inr (Or.inl rfl)))
